import Mathlib

/-!
Verification of the TSETMC option-market fetch-and-reshape script
(`optionfetcher.py`).

The script has three parts:
* `fetch_option_data` — one HTTP GET per market segment, JSON envelope
  parsing, field extraction;
* `fetch_entire_market_data` — fan-out over the two segments, absorbing
  per-segment failures;
* `clean_entire_market_data` — pandas reshaping of the raw dual-leg
  records into one row per call/put leg.

The embedding below models records as association lists of string keys to
values, a pandas `DataFrame` as a column-name list together with rows of
optional cells (`none` plays the role of NaN), and the network as an
oracle mapping a URL to an optional HTTP response (`none` standing for a
transport-level failure).  `fetch_option_data` is instrumented with the
list of URLs it requests, so that "no network call is attempted" and
"exactly one request is issued" are statable.
-/

/-- A cell value carried through the pipeline: the script never computes
with values, it only moves them, so strings and integers suffice. -/
inductive Value where
  | s : String → Value
  | i : Int → Value
deriving DecidableEq, Repr

/-- A raw option record: a Python dict, modelled as an association list
(keys are unique in any actual dict). -/
abbrev Record := List (String × Value)

/-- Python `d.get(k)` / `d[k]` on an association list. -/
def dictGet {α : Type} (d : List (String × α)) (k : String) : Option α :=
  (d.find? (fun kv => kv.1 == k)).map Prod.snd

/-- `MARKETS_NUM` from the source: segment name to numeric identifier. -/
def MARKETS_NUM : List (String × Nat) :=
  [("bourse", 1), ("fara_bourse", 2)]

/-- `GENERAL_COLUMN_NAMES` from the source. -/
def GENERAL_COLUMN_NAMES : List (String × String) :=
  [("uaInsCode", "ua_tse_code"),
   ("lval30_UA", "ua_ticker"),
   ("remainedDay", "days_to_maturity"),
   ("strikePrice", "strike_price"),
   ("contractSize", "contract_size"),
   ("pClosing_UA", "ua_close_price"),
   ("priceYesterday_UA", "ua_yesterday_price"),
   ("beginDate", "begin_date"),
   ("endDate", "end_date")]

/-- `SPECIFIC_COLUMN_NAMES` from the source. -/
def SPECIFIC_COLUMN_NAMES : List (String × String) :=
  [("insCode", "tse_code"),
   ("lVal18AFC", "ticker"),
   ("zTotTran", "trades_num"),
   ("qTotTran5J", "trades_volume"),
   ("qTotCap", "trades_value"),
   ("pDrCotVal", "last_price"),
   ("pClosing", "close_price"),
   ("priceYesterday", "yesterday_price"),
   ("oP", "open_positions"),
   ("yesterdayOP", "yesterday_open_positions"),
   ("notionalValue", "notional_value"),
   ("pMeDem", "bid_price"),
   ("qTitMeDem", "bid_volume"),
   ("pMeOf", "ask_price"),
   ("qTitMeOf", "ask_volume"),
   ("lVal30", "name")]

/-- The field names of the `OptionData` TypedDict, in declaration order:
this is the Raw Option Record shape. -/
def optionDataKeys : List String :=
  ["insCode_P", "insCode_C", "contractSize", "uaInsCode",
   "lVal18AFC_P", "lVal30_P", "zTotTran_P", "qTotTran5J_P",
   "qTotCap_P", "notionalValue_P", "pClosing_P", "priceYesterday_P",
   "oP_P", "pDrCotVal_P", "lval30_UA", "pClosing_UA",
   "priceYesterday_UA", "beginDate", "endDate", "strikePrice",
   "remainedDay", "pDrCotVal_C", "oP_C", "pClosing_C",
   "priceYesterday_C", "notionalValue_C", "qTotCap_C", "qTotTran5J_C",
   "zTotTran_C", "lVal30_C", "lVal18AFC_C", "pMeDem_P",
   "qTitMeDem_P", "pMeOf_P", "qTitMeOf_P", "pMeDem_C",
   "qTitMeDem_C", "pMeOf_C", "qTitMeOf_C", "yesterdayOP_C",
   "yesterdayOP_P"]

/-- Does `pat` occur at the head of `s`?  (Helper for the Python string
primitives below.) -/
def charsMatchAt (pat s : List Char) : Bool :=
  match pat, s with
  | [], _ => true
  | _ :: _, [] => false
  | p :: ps, c :: cs => p == c && charsMatchAt ps cs

/-- Python `s.endswith(post)`: `post` is a suffix of `s`. -/
def strEndsWith (s post : String) : Bool :=
  decide (post.data.length ≤ s.data.length) &&
    s.data.drop (s.data.length - post.data.length) == post.data

/-- One left-to-right pass of Python `str.replace` for a non-empty
pattern: at each position, either consume a pattern occurrence and emit
the replacement, or copy one character.  The fuel argument (the input
length) only serves structural termination; one character at least is
consumed per step. -/
def replaceFuel (pat rep : List Char) : Nat → List Char → List Char
  | _, [] => []
  | 0, s => s
  | Nat.succ fuel, c :: cs =>
    if charsMatchAt pat (c :: cs) then
      rep ++ replaceFuel pat rep fuel (cs.drop (pat.length - 1))
    else
      c :: replaceFuel pat rep fuel cs

/-- Python `s.replace(pat, rep)`: replace every non-overlapping
occurrence of `pat`, scanning left to right; the empty pattern inserts
`rep` before every character and at the end. -/
def strReplace (s pat rep : String) : String :=
  match pat.data with
  | [] => ⟨rep.data ++ s.data.foldr (fun c acc => c :: rep.data ++ acc) []⟩
  | _ :: _ => ⟨replaceFuel pat.data rep.data s.data.length s.data⟩

/-- The keys of a record, in insertion order. -/
def recordKeys (r : Record) : List String := r.map Prod.fst

/-- A record follows the Raw Option Record shape: its keys are exactly
the `OptionData` fields, in declaration order. -/
def RawShape (r : Record) : Prop := recordKeys r = optionDataKeys

instance (r : Record) : Decidable (RawShape r) := by
  unfold RawShape; infer_instance

/-- A pandas DataFrame: column labels together with rows of cells; a
`none` cell is NaN (a missing value). -/
structure DataFrame where
  cols : List String
  rows : List (List (Option Value))
deriving DecidableEq, Repr

/-- Fold a row's keys into an accumulated column list, keeping first
occurrences in order (how pandas unions the keys of a list of dicts). -/
def insertKeys (acc : List String) (ks : List String) : List String :=
  ks.foldl (fun a k => if a.contains k then a else a ++ [k]) acc

/-- Column labels of `pd.DataFrame(raw)`: union of the records' keys in
order of first appearance. -/
def collectCols (raw : List Record) : List String :=
  raw.foldl (fun acc r => insertKeys acc (recordKeys r)) []

/-- Look a key up in a record, as the DataFrame constructor does; a
missing key yields NaN. -/
def lookupVal (r : Record) (k : String) : Option Value := dictGet r k

/-- `pd.DataFrame(raw)` for a list of dict records: one row per record,
cells aligned to the unioned columns, missing keys filled with NaN. -/
def toDF (raw : List Record) : DataFrame :=
  let cs := collectCols raw
  ⟨cs, raw.map (fun r => cs.map (lookupVal r))⟩

/-- `df[cs]` — column projection in the requested order; a missing label
raises `KeyError`, modelled as `none`. -/
def selectCols (df : DataFrame) (cs : List String) : Option DataFrame :=
  match cs.mapM (fun c => df.cols.findIdx? (fun x => x == c)) with
  | none => none
  | some idxs => some ⟨cs, df.rows.map (fun row => idxs.map (fun i => row.getD i none))⟩

/-- `df.rename(columns=m)` — relabel every column that appears as a key
of `m`; rows are untouched. -/
def renameCols (df : DataFrame) (m : List (String × String)) : DataFrame :=
  ⟨df.cols.map (fun c => (dictGet m c).getD c), df.rows⟩

/-- `df[c] = v` for a scalar `v`: overwrite the column when the label
exists, otherwise append a new column holding `v` in every row. -/
def assignConst (df : DataFrame) (c : String) (v : Value) : DataFrame :=
  match df.cols.findIdx? (fun x => x == c) with
  | some i => ⟨df.cols, df.rows.map (fun row => row.set i (some v))⟩
  | none => ⟨df.cols ++ [c], df.rows.map (fun row => row ++ [some v])⟩

/-- `pd.concat([a, b], ignore_index=True)`: columns of `a` followed by
the columns of `b` not already present; each row reindexed to that
union, absent labels filled with NaN; rows of `a` then rows of `b`. -/
def concatDF (a b : DataFrame) : DataFrame :=
  let cs := a.cols ++ b.cols.filter (fun c => !(a.cols.contains c))
  let re := fun (src : DataFrame) (row : List (Option Value)) =>
    cs.map (fun c =>
      match src.cols.findIdx? (fun x => x == c) with
      | some i => row.getD i none
      | none => none)
  ⟨cs, a.rows.map (re a) ++ b.rows.map (re b)⟩

/-- The body of `clean_entire_market_data` once the frame is built:
split columns into general (no `_P`/`_C` suffix) and specific ones,
project and relabel the call legs and the put legs, tag each with
`option_type`, concatenate calls then puts, and apply the general
renames.  A failed column projection (pandas `KeyError`) is `none`. -/
def cleanFromFrame (df : DataFrame) : Option DataFrame :=
  let general_columns := df.cols.filter (fun c => !(strEndsWith c "_P" || strEndsWith c "_C"))
  let specific_columns := (df.cols.filter (fun c => strEndsWith c "_C")).map (fun c => strReplace c "_C" "")
  match selectCols df (general_columns ++ specific_columns.map (fun c => c ++ "_C")) with
  | none => none
  | some calls0 =>
    let calls1 : DataFrame := ⟨calls0.cols.map (fun c => strReplace c "_C" ""), calls0.rows⟩
    let calls2 := renameCols calls1 SPECIFIC_COLUMN_NAMES
    let calls := assignConst calls2 "option_type" (Value.s "call")
    match selectCols df (general_columns ++ specific_columns.map (fun c => c ++ "_P")) with
    | none => none
    | some puts0 =>
      let puts1 : DataFrame := ⟨puts0.cols.map (fun c => strReplace c "_P" ""), puts0.rows⟩
      let puts2 := renameCols puts1 SPECIFIC_COLUMN_NAMES
      let puts := assignConst puts2 "option_type" (Value.s "put")
      some (renameCols (concatDF calls puts) GENERAL_COLUMN_NAMES)

/-- `clean_entire_market_data` from the source: build a DataFrame from
the raw records and reshape it into one row per call/put leg. -/
def clean_entire_market_data (raw : List Record) : Option DataFrame :=
  cleanFromFrame (toDF raw)

/-- The general (unsuffixed) keys of the Raw Option Record shape, in
column order. -/
def generalKeys : List String :=
  ["contractSize", "uaInsCode", "lval30_UA", "pClosing_UA",
   "priceYesterday_UA", "beginDate", "endDate", "strikePrice",
   "remainedDay"]

/-- The leg-specific base keys of the Raw Option Record shape (suffix
stripped), in column order. -/
def specificBaseKeys : List String :=
  ["insCode", "pDrCotVal", "oP", "pClosing", "priceYesterday",
   "notionalValue", "qTotCap", "qTotTran5J", "zTotTran", "lVal30",
   "lVal18AFC", "pMeDem", "qTitMeDem", "pMeOf", "qTitMeOf",
   "yesterdayOP"]

/-- The record fields contributing to a call-leg row, in output order. -/
def callSourceKeys : List String :=
  generalKeys ++ specificBaseKeys.map (fun k => k ++ "_C")

/-- The record fields contributing to a put-leg row, in output order. -/
def putSourceKeys : List String :=
  generalKeys ++ specificBaseKeys.map (fun k => k ++ "_P")

/-- The call-leg row produced for one raw record: its general fields,
its `_C` fields, and the `call` tag. -/
def callRowOf (r : Record) : List (Option Value) :=
  callSourceKeys.map (lookupVal r) ++ [some (Value.s "call")]

/-- The put-leg row produced for one raw record: its general fields,
its `_P` fields, and the `put` tag. -/
def putRowOf (r : Record) : List (Option Value) :=
  putSourceKeys.map (lookupVal r) ++ [some (Value.s "put")]

/-- The column labels of the cleaned table for full-shape input. -/
def finalColumns : List String :=
  ["contract_size", "ua_tse_code", "ua_ticker", "ua_close_price",
   "ua_yesterday_price", "begin_date", "end_date", "strike_price",
   "days_to_maturity", "tse_code", "last_price", "open_positions",
   "close_price", "yesterday_price", "notional_value", "trades_value",
   "trades_volume", "trades_num", "name", "ticker", "bid_price",
   "bid_volume", "ask_price", "ask_volume",
   "yesterday_open_positions", "option_type"]

/-- The column labels after the leg suffix strip and the specific
renames, before the final general renames. -/
def stagedColumns : List String :=
  ["contractSize", "uaInsCode", "lval30_UA", "pClosing_UA",
   "priceYesterday_UA", "beginDate", "endDate", "strikePrice",
   "remainedDay", "tse_code", "last_price", "open_positions",
   "close_price", "yesterday_price", "notional_value", "trades_value",
   "trades_volume", "trades_num", "name", "ticker", "bid_price",
   "bid_volume", "ask_price", "ask_volume",
   "yesterday_open_positions"]

/-- The cell of row `i` at the column labelled `c`: `none` when the row
or the label does not exist, `some cell` otherwise (the cell itself is
`none` exactly when it holds NaN). -/
def DataFrame.cell (df : DataFrame) (i : Nat) (c : String) : Option (Option Value) :=
  match df.rows.get? i with
  | none => none
  | some row =>
    match df.cols.findIdx? (fun x => x == c) with
    | none => none
    | some j => row.get? j

/-- How many rows of the table contain the value `v` in some cell. -/
def rowsContaining (df : DataFrame) (v : Value) : Nat :=
  (df.rows.filter (fun row => row.contains (some v))).length

/-- The synthetic single-record input of the spec's reshape test. -/
def syntheticRecord : Record :=
  [("uaInsCode", Value.s "X"),
   ("insCode_C", Value.s "c1"), ("pClosing_C", Value.i 100),
   ("insCode_P", Value.s "p1"), ("pClosing_P", Value.i 50)]

/-- A full Raw-Option-Record-shaped record with pairwise distinct
values: the general field `uaInsCode` holds the string `X`, every other
field a distinct integer. -/
def bigOptionRecord : Record :=
  [("insCode_P", Value.i 0), ("insCode_C", Value.i 1),
   ("contractSize", Value.i 2), ("uaInsCode", Value.s "X"),
   ("lVal18AFC_P", Value.i 4), ("lVal30_P", Value.i 5),
   ("zTotTran_P", Value.i 6), ("qTotTran5J_P", Value.i 7),
   ("qTotCap_P", Value.i 8), ("notionalValue_P", Value.i 9),
   ("pClosing_P", Value.i 10), ("priceYesterday_P", Value.i 11),
   ("oP_P", Value.i 12), ("pDrCotVal_P", Value.i 13),
   ("lval30_UA", Value.i 14), ("pClosing_UA", Value.i 15),
   ("priceYesterday_UA", Value.i 16), ("beginDate", Value.i 17),
   ("endDate", Value.i 18), ("strikePrice", Value.i 19),
   ("remainedDay", Value.i 20), ("pDrCotVal_C", Value.i 21),
   ("oP_C", Value.i 22), ("pClosing_C", Value.i 23),
   ("priceYesterday_C", Value.i 24), ("notionalValue_C", Value.i 25),
   ("qTotCap_C", Value.i 26), ("qTotTran5J_C", Value.i 27),
   ("zTotTran_C", Value.i 28), ("lVal30_C", Value.i 29),
   ("lVal18AFC_C", Value.i 30), ("pMeDem_P", Value.i 31),
   ("qTitMeDem_P", Value.i 32), ("pMeOf_P", Value.i 33),
   ("qTitMeOf_P", Value.i 34), ("pMeDem_C", Value.i 35),
   ("qTitMeDem_C", Value.i 36), ("pMeOf_C", Value.i 37),
   ("qTitMeOf_C", Value.i 38), ("yesterdayOP_C", Value.i 39),
   ("yesterdayOP_P", Value.i 40)]

/-- An HTTP response, as far as the script inspects one: the status
code, and the parsed JSON body — `none` when the body is not a JSON
object (so `response.json()` raises), otherwise the object's fields
holding record lists. -/
structure HttpResponse where
  status : Nat
  body : Option (List (String × List Record))
deriving DecidableEq, Repr

/-- The network, as an oracle from the requested URL to an optional
response; `none` stands for a transport-level failure (timeout or
connection error), which `requests.get` raises as a
`RequestException`. -/
abbrev Network := String → Option HttpResponse

/-- The two error conditions `fetch_option_data` can raise: the
`ValueError` for an unknown market, and the `requests.RequestException`
family (connection failures, `raise_for_status` on 4xx/5xx, and the
JSON decode error on a non-JSON body). -/
inductive FetchError where
  | invalidMarket
  | requestException
deriving DecidableEq, Repr

deriving instance DecidableEq for Except

/-- The instrumented result of one `fetch_option_data` call: the URLs
it requested, and the records it returned or the error it raised. -/
structure FetchResult where
  requests : List String
  outcome : Except FetchError (List Record)

/-- The per-segment endpoint URL built by `fetch_option_data`. -/
def requestUrl (market_num : Nat) : String :=
  "https://cdn.tsetmc.com/api/Instrument/GetInstrumentOptionMarketWatch/" ++ toString market_num

/-- `fetch_option_data` from the source: reject an unknown market with
a `ValueError` before any request; otherwise GET the segment URL, raise
for a transport failure or a 4xx/5xx status (`raise_for_status`) or a
non-JSON body, and extract the `instrumentOptMarketWatch` field,
defaulting to the empty list when the field is absent. -/
def fetch_option_data (net : Network) (market : String) : FetchResult :=
  match dictGet MARKETS_NUM market with
  | none => ⟨[], .error .invalidMarket⟩
  | some market_num =>
    ⟨[requestUrl market_num],
      match net (requestUrl market_num) with
      | none => .error .requestException
      | some response =>
        if 400 ≤ response.status ∧ response.status < 600 then
          .error .requestException
        else
          match response.body with
          | none => .error .requestException
          | some json_response =>
            .ok ((dictGet json_response "instrumentOptMarketWatch").getD [])⟩

/-- `fetch_entire_market_data` from the source: fetch each market of
`MARKETS_NUM` (the executor's futures dict iterates in insertion
order), extending the result list with each successful fetch and
absorbing any exception of a failed one.  The function is total: it
never raises. -/
def fetch_entire_market_data (net : Network) : List Record :=
  MARKETS_NUM.foldl (fun results mk =>
    match (fetch_option_data net mk.1).outcome with
    | .ok data => results ++ data
    | .error _ => results) []

/-- A network on which both segments respond 200 with one record
each. -/
def netBothUp : Network := fun url =>
  if url == requestUrl 1 then
    some ⟨200, some [("instrumentOptMarketWatch", [syntheticRecord])]⟩
  else if url == requestUrl 2 then
    some ⟨200, some [("instrumentOptMarketWatch", [bigOptionRecord])]⟩
  else none

/-- A network on which every request fails at transport level. -/
def netAllDown : Network := fun _ => none

/-- A network whose bourse endpoint answers with status 304 (not a 2xx
success, yet below the 4xx/5xx range that `raise_for_status` rejects)
and a JSON body that carries one record. -/
def net304 : Network := fun url =>
  if url == requestUrl 1 then
    some ⟨304, some [("instrumentOptMarketWatch", [syntheticRecord])]⟩
  else none

/-- A network whose bourse endpoint answers 200 with a JSON object that
lacks the `instrumentOptMarketWatch` field. -/
def netNoField : Network := fun url =>
  if url == requestUrl 1 then some ⟨200, some [("other", [])]⟩
  else none

/-- The Python object heap relevant to the mutation claim: the record
dicts of the input list, addressed by position. -/
structure Heap where
  recs : List Record
deriving DecidableEq

/-- Modelled from the spec and pandas' documented behavior (pandas is a
library, not part of this repository): `pd.DataFrame(list_of_dicts)`
reads the dicts and copies their values into a fresh frame; the heap is
only read, never written. -/
def pd_DataFrame_step (h : Heap) (addrs : List Nat) : Heap × DataFrame :=
  (h, toDF (addrs.map (fun a => h.recs.getD a [])))

/-- `clean_entire_market_data` with the input heap threaded through:
the frame construction reads the heap, and every later operation acts
on the fresh frame alone, so the heap passes through unchanged. -/
def clean_entire_market_data_heap (h : Heap) (addrs : List Nat) :
    Heap × Option DataFrame :=
  let step := pd_DataFrame_step h addrs
  (step.1, cleanFromFrame step.2)

theorem insertKeys_of_contains (ks : List String) :
    ∀ acc : List String, (∀ k ∈ ks, acc.contains k = true) →
    insertKeys acc ks = acc := by
  induction ks with
  | nil => intro acc _; rfl
  | cons k ks ih =>
    intro acc h
    have hk : acc.contains k = true := h k (by simp)
    show insertKeys (if acc.contains k then acc else acc ++ [k]) ks = acc
    rw [hk]
    simp only [if_true]
    exact ih acc (fun x hx => h x (List.mem_cons_of_mem _ hx))

theorem foldl_insertKeys_fixed (rs : List Record)
    (h : ∀ x ∈ rs, RawShape x) :
    rs.foldl (fun acc x => insertKeys acc (recordKeys x)) optionDataKeys
      = optionDataKeys := by
  induction rs with
  | nil => rfl
  | cons x rs ih =>
    rw [List.foldl_cons]
    have hx : recordKeys x = optionDataKeys := h x (by simp)
    have e : insertKeys optionDataKeys (recordKeys x) = optionDataKeys := by
      rw [hx]; decide
    rw [e]
    exact ih (fun y hy => h y (List.mem_cons_of_mem _ hy))

theorem collectCols_of_rawShape (r : Record) (rs : List Record)
    (h : ∀ x ∈ r :: rs, RawShape x) :
    collectCols (r :: rs) = optionDataKeys := by
  have h0 : recordKeys r = optionDataKeys := h r (by simp)
  show List.foldl _ (insertKeys [] (recordKeys r)) rs = _
  have e1 : insertKeys [] (recordKeys r) = optionDataKeys := by
    rw [h0]; decide
  rw [e1]
  exact foldl_insertKeys_fixed rs (fun y hy => h y (List.mem_cons_of_mem _ hy))

set_option maxHeartbeats 2000000 in
theorem cleanFromFrame_canonical (l : List Record) :
    cleanFromFrame ⟨optionDataKeys, l.map (fun x => optionDataKeys.map (lookupVal x))⟩
      = some ⟨finalColumns, l.map callRowOf ++ l.map putRowOf⟩ := by
  unfold cleanFromFrame selectCols
  have hG : List.filter (fun c => !(strEndsWith c "_P" || strEndsWith c "_C")) optionDataKeys
      = generalKeys := by decide
  have hC : List.map ((fun c => c ++ "_C") ∘ fun c => strReplace c "_C" "")
      (List.filter (fun c => strEndsWith c "_C") optionDataKeys)
      = specificBaseKeys.map (fun k => k ++ "_C") := by decide
  have hP : List.map ((fun c => c ++ "_P") ∘ fun c => strReplace c "_C" "")
      (List.filter (fun c => strEndsWith c "_C") optionDataKeys)
      = specificBaseKeys.map (fun k => k ++ "_P") := by decide
  have hmC : List.mapM (fun c => List.findIdx? (fun x => x == c) optionDataKeys)
      (generalKeys ++ specificBaseKeys.map (fun k => k ++ "_C"))
      = some [2, 3, 14, 15, 16, 17, 18, 19, 20, 1, 21, 22, 23, 24, 25,
              26, 27, 28, 29, 30, 35, 36, 37, 38, 39] := by decide
  have hmP : List.mapM (fun c => List.findIdx? (fun x => x == c) optionDataKeys)
      (generalKeys ++ specificBaseKeys.map (fun k => k ++ "_P"))
      = some [2, 3, 14, 15, 16, 17, 18, 19, 20, 0, 13, 12, 10, 11, 9,
              8, 7, 6, 5, 4, 31, 32, 33, 34, 40] := by decide
  simp only [List.map_map, hG, hC, hP, hmC, hmP]
  simp only [renameCols, List.map_map]
  have hRC : List.map ((fun c => (dictGet SPECIFIC_COLUMN_NAMES c).getD c) ∘ fun c => strReplace c "_C" "")
      (generalKeys ++ List.map (fun c => c ++ "_C") specificBaseKeys) = stagedColumns := by decide
  have hRP : List.map ((fun c => (dictGet SPECIFIC_COLUMN_NAMES c).getD c) ∘ fun c => strReplace c "_P" "")
      (generalKeys ++ List.map (fun c => c ++ "_P") specificBaseKeys) = stagedColumns := by decide
  simp only [hRC, hRP]
  have hFind : List.findIdx? (fun x => x == "option_type") stagedColumns = none := by decide
  simp only [assignConst, hFind]
  simp only [concatDF, List.map_map]
  have hfilter : List.filter (fun c => !(stagedColumns ++ ["option_type"]).contains c)
      (stagedColumns ++ ["option_type"]) = [] := by decide
  simp only [hfilter, List.append_nil]
  have hFin : List.map (fun c => (dictGet GENERAL_COLUMN_NAMES c).getD c)
      (stagedColumns ++ ["option_type"]) = finalColumns := by decide
  simp only [hFin, Option.some.injEq, DataFrame.mk.injEq]
  refine ⟨trivial, ?_⟩
  congr 1

theorem clean_cons_of_rawShape (r : Record) (rs : List Record)
    (h : ∀ x ∈ r :: rs, RawShape x) :
    clean_entire_market_data (r :: rs) =
      some ⟨finalColumns, (r :: rs).map callRowOf ++ (r :: rs).map putRowOf⟩ := by
  have hc : collectCols (r :: rs) = optionDataKeys := collectCols_of_rawShape r rs h
  show cleanFromFrame (toDF (r :: rs)) = _
  unfold toDF
  simp only [hc]
  exact cleanFromFrame_canonical (r :: rs)

/-- Claim C1: for every input list of Raw-Option-Record-shaped records,
`clean_entire_market_data` returns a table of exactly `2 * n` rows for
`n` input records, the call-leg rows of the records in input order
followed by the put-leg rows of the records in input order, with no row
dropped, duplicated or reordered within each half. -/
theorem reshape_concats_calls_then_puts (raw : List Record)
    (h : ∀ r ∈ raw, RawShape r) :
    ∃ df, clean_entire_market_data raw = some df ∧
      df.rows = raw.map callRowOf ++ raw.map putRowOf ∧
      df.rows.length = 2 * raw.length := by
  cases raw with
  | nil =>
    exact ⟨⟨["option_type"], []⟩, by decide, rfl, rfl⟩
  | cons r rs =>
    refine ⟨_, clean_cons_of_rawShape r rs h, rfl, ?_⟩
    simp only [List.length_append, List.length_map, List.length_cons, Nat.two_mul]

/-- Witness for the claim C1 theorem at a concrete one-record input of
the Raw Option Record shape. -/
theorem reshape_concats_calls_then_puts_witness :
    (∀ r ∈ [bigOptionRecord], RawShape r) ∧
    (∃ df, clean_entire_market_data [bigOptionRecord] = some df ∧
      df.rows = [bigOptionRecord].map callRowOf ++ [bigOptionRecord].map putRowOf ∧
      df.rows.length = 2 * [bigOptionRecord].length) :=
  ⟨by decide, reshape_concats_calls_then_puts [bigOptionRecord] (by decide)⟩

/-- Claim C2: on the synthetic one-record input, the reshape produces
exactly two rows, a call row carrying `tse_code = "c1"`,
`close_price = 100`, `ua_tse_code = "X"`, and a put row carrying
`tse_code = "p1"`, `close_price = 50`, `ua_tse_code = "X"`. -/
theorem reshape_synthetic_record_rows :
    ∃ df, clean_entire_market_data [syntheticRecord] = some df ∧
      df.rows.length = 2 ∧
      df.cell 0 "option_type" = some (some (Value.s "call")) ∧
      df.cell 0 "tse_code" = some (some (Value.s "c1")) ∧
      df.cell 0 "close_price" = some (some (Value.i 100)) ∧
      df.cell 0 "ua_tse_code" = some (some (Value.s "X")) ∧
      df.cell 1 "option_type" = some (some (Value.s "put")) ∧
      df.cell 1 "tse_code" = some (some (Value.s "p1")) ∧
      df.cell 1 "close_price" = some (some (Value.i 50)) ∧
      df.cell 1 "ua_tse_code" = some (some (Value.s "X")) :=
  ⟨⟨["ua_tse_code", "tse_code", "close_price", "option_type"],
    [[some (Value.s "X"), some (Value.s "c1"), some (Value.i 100), some (Value.s "call")],
     [some (Value.s "X"), some (Value.s "p1"), some (Value.i 50), some (Value.s "put")]]⟩,
   by decide⟩

/-- Claim C7: the reshape of the empty input sequence succeeds and the
resulting table has zero rows. -/
theorem reshape_empty_input :
    ∃ df, clean_entire_market_data [] = some df ∧ df.rows.length = 0 :=
  ⟨⟨["option_type"], []⟩, by decide⟩

/-- Claim C9: the reshape is deterministic — two calls on the same
input list produce identical output tables. -/
theorem reshape_deterministic (raw₁ raw₂ : List Record) (h : raw₁ = raw₂) :
    clean_entire_market_data raw₁ = clean_entire_market_data raw₂ := by
  rw [h]

/-- Witness for the claim C9 theorem at a concrete input. -/
theorem reshape_deterministic_witness :
    [syntheticRecord] = [syntheticRecord] ∧
    clean_entire_market_data [syntheticRecord] =
      clean_entire_market_data [syntheticRecord] :=
  ⟨rfl, reshape_deterministic [syntheticRecord] [syntheticRecord] rfl⟩

/-- Counterexample to claim C6 as stated: in the table reshaped from
one full-shape record whose values are pairwise distinct, the value of
the general field `uaInsCode` appears in two rows (the record's call
row and its put row), not in exactly one. -/
theorem value_in_one_row_counterexample :
    dictGet bigOptionRecord "uaInsCode" = some (Value.s "X") ∧
    ∃ df, clean_entire_market_data [bigOptionRecord] = some df ∧
      rowsContaining df (Value.s "X") = 2 ∧
      rowsContaining df (Value.s "X") ≠ 1 :=
  ⟨by decide,
   ⟨⟨finalColumns, [callRowOf bigOptionRecord, putRowOf bigOptionRecord]⟩,
    by decide, by decide, by decide⟩⟩

/-- Claim C6 as amended: for a Raw-Option-Record-shaped record, each
leg-specific field's value appears unchanged under its renamed key in
its leg's row (the `_C` value in the call row, the `_P` value in the
put row), while each general field's value appears unchanged under its
renamed key in both produced rows. -/
theorem leg_values_once_general_values_twice (r : Record) (h : RawShape r) :
    ∃ df, clean_entire_market_data [r] = some df ∧
      df.rows.length = 2 ∧
      df.cell 0 "option_type" = some (some (Value.s "call")) ∧
      df.cell 1 "option_type" = some (some (Value.s "put")) ∧
      (∀ g ∈ generalKeys,
        df.cell 0 ((dictGet GENERAL_COLUMN_NAMES g).getD g) = some (dictGet r g) ∧
        df.cell 1 ((dictGet GENERAL_COLUMN_NAMES g).getD g) = some (dictGet r g)) ∧
      (∀ b ∈ specificBaseKeys,
        df.cell 0 ((dictGet SPECIFIC_COLUMN_NAMES b).getD b) = some (dictGet r (b ++ "_C")) ∧
        df.cell 1 ((dictGet SPECIFIC_COLUMN_NAMES b).getD b) = some (dictGet r (b ++ "_P"))) := by
  refine ⟨⟨finalColumns, [callRowOf r, putRowOf r]⟩,
    clean_cons_of_rawShape r [] (fun x hx => (List.mem_singleton.mp hx) ▸ h),
    rfl, rfl, rfl, ?_, ?_⟩
  · intro g hg
    fin_cases hg <;> exact ⟨rfl, rfl⟩
  · intro b hb
    fin_cases hb <;> exact ⟨rfl, rfl⟩

/-- Witness for the amended claim C6 theorem at a concrete full-shape
record. -/
theorem leg_values_once_general_values_twice_witness :
    RawShape bigOptionRecord ∧
    (∃ df, clean_entire_market_data [bigOptionRecord] = some df ∧
      df.rows.length = 2 ∧
      df.cell 0 "option_type" = some (some (Value.s "call")) ∧
      df.cell 1 "option_type" = some (some (Value.s "put")) ∧
      (∀ g ∈ generalKeys,
        df.cell 0 ((dictGet GENERAL_COLUMN_NAMES g).getD g) = some (dictGet bigOptionRecord g) ∧
        df.cell 1 ((dictGet GENERAL_COLUMN_NAMES g).getD g) = some (dictGet bigOptionRecord g)) ∧
      (∀ b ∈ specificBaseKeys,
        df.cell 0 ((dictGet SPECIFIC_COLUMN_NAMES b).getD b) = some (dictGet bigOptionRecord (b ++ "_C")) ∧
        df.cell 1 ((dictGet SPECIFIC_COLUMN_NAMES b).getD b) = some (dictGet bigOptionRecord (b ++ "_P")))) :=
  ⟨by decide, leg_values_once_general_values_twice bigOptionRecord (by decide)⟩

/-- Claim C10: the reshape does not mutate its input — threading the
heap of input record dicts through the pipeline returns it unchanged,
and the produced table agrees with the pure model on the dereferenced
records. -/
theorem reshape_preserves_input_heap (h : Heap) (addrs : List Nat) :
    (clean_entire_market_data_heap h addrs).1 = h ∧
    (clean_entire_market_data_heap h addrs).2 =
      clean_entire_market_data (addrs.map (fun a => h.recs.getD a [])) :=
  ⟨rfl, rfl⟩

/-- Claim C4: for any market identifier other than `bourse` and
`fara_bourse`, `fetch_option_data` raises the invalid-market error
having issued no request at all (on any network whatsoever), and
returns no partial result. -/
theorem invalid_market_rejected_before_request (net : Network) (market : String)
    (h₁ : market ≠ "bourse") (h₂ : market ≠ "fara_bourse") :
    fetch_option_data net market = ⟨[], .error .invalidMarket⟩ := by
  have b1 : (("bourse" : String) == market) = false :=
    beq_eq_false_iff_ne.mpr (Ne.symm h₁)
  have b2 : (("fara_bourse" : String) == market) = false :=
    beq_eq_false_iff_ne.mpr (Ne.symm h₂)
  have hm : dictGet MARKETS_NUM market = none := by
    simp [dictGet, MARKETS_NUM, List.find?, b1, b2]
  unfold fetch_option_data
  rw [hm]

/-- Witness for the claim C4 theorem at a concrete invalid market. -/
theorem invalid_market_rejected_before_request_witness :
    ("tehran" ≠ "bourse" ∧ "tehran" ≠ "fara_bourse") ∧
    fetch_option_data netAllDown "tehran" = ⟨[], .error .invalidMarket⟩ :=
  ⟨by decide,
   invalid_market_rejected_before_request netAllDown "tehran" (by decide) (by decide)⟩

/-- Claim C8: on any network, fetching `bourse` issues exactly one GET
request, to the endpoint URL carrying segment number 1, and fetching
`fara_bourse` exactly one, to the endpoint URL carrying segment
number 2. -/
theorem fetch_requests_exactly_segment_url (net : Network) :
    (fetch_option_data net "bourse").requests
      = ["https://cdn.tsetmc.com/api/Instrument/GetInstrumentOptionMarketWatch/1"] ∧
    (fetch_option_data net "fara_bourse").requests
      = ["https://cdn.tsetmc.com/api/Instrument/GetInstrumentOptionMarketWatch/2"] ∧
    (fetch_option_data net "bourse").requests.length = 1 ∧
    (fetch_option_data net "fara_bourse").requests.length = 1 :=
  ⟨rfl, rfl, rfl, rfl⟩

/-- Claim C3: `fetch_entire_market_data` (a total function — it never
raises) concatenates both segments' records when both fetches succeed,
keeps only the surviving segment's records when exactly one fails, and
returns the empty list when both fail. -/
theorem fetch_all_absorbs_segment_failures (net : Network)
    (d₁ d₂ : List Record) (e₁ e₂ : FetchError) :
    ((fetch_option_data net "bourse").outcome = .ok d₁ →
      (fetch_option_data net "fara_bourse").outcome = .ok d₂ →
      fetch_entire_market_data net = d₁ ++ d₂) ∧
    ((fetch_option_data net "bourse").outcome = .error e₁ →
      (fetch_option_data net "fara_bourse").outcome = .ok d₂ →
      fetch_entire_market_data net = d₂) ∧
    ((fetch_option_data net "bourse").outcome = .ok d₁ →
      (fetch_option_data net "fara_bourse").outcome = .error e₂ →
      fetch_entire_market_data net = d₁) ∧
    ((fetch_option_data net "bourse").outcome = .error e₁ →
      (fetch_option_data net "fara_bourse").outcome = .error e₂ →
      fetch_entire_market_data net = []) := by
  refine ⟨?_, ?_, ?_, ?_⟩ <;>
    · intro hb hf
      simp [fetch_entire_market_data, MARKETS_NUM, hb, hf]

/-- Witness for the claim C3 theorem: both-up and both-down networks. -/
theorem fetch_all_absorbs_segment_failures_witness :
    fetch_entire_market_data netBothUp = [syntheticRecord] ++ [bigOptionRecord] ∧
    fetch_entire_market_data netAllDown = [] :=
  ⟨(fetch_all_absorbs_segment_failures netBothUp [syntheticRecord] [bigOptionRecord]
      .requestException .requestException).1 (by decide) (by decide),
   (fetch_all_absorbs_segment_failures netAllDown [] []
      .requestException .requestException).2.2.2 (by decide) (by decide)⟩

/-- Counterexample to claim C5 as stated: the bourse endpoint of
`net304` answers with status 304 — not a success (2xx) status — and a
JSON body carrying one record; `fetch_option_data` does not raise (the
4xx/5xx check of `raise_for_status` passes 304) and returns the data,
where the claim requires a network-error condition for every
non-success status. -/
theorem fetch_non2xx_not_always_error_counterexample :
    net304 (requestUrl 1)
      = some ⟨304, some [("instrumentOptMarketWatch", [syntheticRecord])]⟩ ∧
    ¬(200 ≤ 304 ∧ 304 < 300) ∧
    (fetch_option_data net304 "bourse").outcome = Except.ok [syntheticRecord] := by
  decide

/-- Claim C5 as amended: for a valid segment, `fetch_option_data`
raises the network-error condition (with no partial result) exactly
when the transport fails, when the status is in the 4xx/5xx range
`raise_for_status` rejects, or when the body is not a JSON object;
a response passing those checks whose JSON lacks the
`instrumentOptMarketWatch` field yields the empty sequence, and one
carrying the field yields its records. -/
theorem fetch_network_error_vs_missing_field (net : Network) (market : String)
    (n : Nat) (hm : dictGet MARKETS_NUM market = some n) :
    (net (requestUrl n) = none →
      (fetch_option_data net market).outcome = .error .requestException) ∧
    (∀ resp, net (requestUrl n) = some resp →
      400 ≤ resp.status → resp.status < 600 →
      (fetch_option_data net market).outcome = .error .requestException) ∧
    (∀ resp, net (requestUrl n) = some resp →
      ¬(400 ≤ resp.status ∧ resp.status < 600) → resp.body = none →
      (fetch_option_data net market).outcome = .error .requestException) ∧
    (∀ resp obj, net (requestUrl n) = some resp →
      ¬(400 ≤ resp.status ∧ resp.status < 600) → resp.body = some obj →
      dictGet obj "instrumentOptMarketWatch" = none →
      (fetch_option_data net market).outcome = .ok []) ∧
    (∀ resp obj records, net (requestUrl n) = some resp →
      ¬(400 ≤ resp.status ∧ resp.status < 600) → resp.body = some obj →
      dictGet obj "instrumentOptMarketWatch" = some records →
      (fetch_option_data net market).outcome = .ok records) := by
  unfold fetch_option_data
  rw [hm]
  refine ⟨?_, ?_, ?_, ?_, ?_⟩
  · intro hnet; simp [hnet]
  · intro resp hnet h4 h6; simp [hnet, if_pos (⟨h4, h6⟩ : _ ∧ _)]
  · intro resp hnet hcond hbody; simp [hnet, if_neg hcond, hbody]
  · intro resp obj hnet hcond hbody hfield
    simp [hnet, if_neg hcond, hbody, hfield]
  · intro resp obj records hnet hcond hbody hfield
    simp [hnet, if_neg hcond, hbody, hfield]

/-- Witness for the amended claim C5 theorem: a transport failure
raises, and a 200 response lacking the field yields the empty list. -/
theorem fetch_network_error_vs_missing_field_witness :
    dictGet MARKETS_NUM "bourse" = some 1 ∧
    (fetch_option_data netAllDown "bourse").outcome = .error .requestException ∧
    (fetch_option_data netNoField "bourse").outcome = .ok [] :=
  ⟨by decide,
   (fetch_network_error_vs_missing_field netAllDown "bourse" 1 (by decide)).1 rfl,
   (fetch_network_error_vs_missing_field netNoField "bourse" 1 (by decide)).2.2.2.1
     ⟨200, some [("other", [])]⟩ [("other", [])]
     (by decide) (by decide) (by decide) (by decide)⟩
